import Mathlib

/-!
Verification of the hapi-terminator request-admission gate.

The repository contains several evolutions of the same plugin:

* `src/index.ts` — numeric or predicate limits (`registeredLimit`,
  `unregisteredLimit`), a `Number.isNaN` guard on the parsed
  `Content-Length`, socket destroyed and a Boom 413/404 thrown on
  rejection.  Embedded in namespace `IndexTs`.
* `src/unnamed/part_004` — the same logic split into
  `handleRegisteredRoute` / `handleUnregisteredRoute`.  Embedded in
  namespace `Part004`.
* `src/unnamed/part_002` (and the identical handler in the first half of
  `src/unnamed/part_003`) — only `unregisteredLimit`
  (number ≥ 0 | boolean | nullish); registered routes are limited by
  Hapi's `route.settings.payload?.maxBytes`; Transfer-Encoding forces the
  unregistered limit to `0`; no NaN guard.  Embedded in namespace
  `Part002`.
* second half of `src/unnamed/part_003` — zod-validated
  `registeredLimit` / `unregisteredLimit`, per-route plugin override
  `{ limit }` with a memoizing route-options cache.  Embedded in
  namespace `Part003V2`.

Machine numbers are modelled as `Int` (JavaScript `NaN` as `Option.none`
where it can arise), headers as `Option String` with JavaScript
truthiness, and `Number.parseInt(s, 10)` as `parseIntJS`.
-/

/-- Outcome of the gate for one request: `h.continue`, a 413
entity-too-large rejection (carrying the numeric limit shown in the error
message, when there is one), or a 404 not-found rejection. -/
inductive Verdict where
  | Continue
  | Reject413 (limitShown : Option Int)
  | Reject404
deriving DecidableEq

/-- JavaScript truthiness of an optional header string: `undefined` and
the empty string are falsy, every other string is truthy. -/
def strTruthy : Option String → Bool
  | none => false
  | some s => !(s == "")

/-- Value of the leading decimal-digit prefix of a character list, or
`none` when the list does not start with a digit (mirrors how
`Number.parseInt` consumes digits in radix 10). -/
def jsDigitsVal (cs : List Char) : Option Nat :=
  let ds := cs.takeWhile Char.isDigit
  if ds.isEmpty then none
  else some (ds.foldl (fun a c => a * 10 + (c.toNat - 48)) 0)

/-- Embedding of JavaScript `Number.parseInt(s, 10)`: skip leading
whitespace, read an optional sign and then the longest digit prefix;
`none` models the `NaN` result when no digits are found. -/
def parseIntJS (s : String) : Option Int :=
  let cs := s.data.dropWhile (fun c => c == ' ' || c == '\t' || c == '\n' || c == '\r')
  match cs with
  | '-' :: rest => (jsDigitsVal rest).map (fun n => -(n : Int))
  | '+' :: rest => (jsDigitsVal rest).map (fun n => (n : Int))
  | _ => (jsDigitsVal cs).map (fun n => (n : Int))

/-- JavaScript `a > b` where `a` may be `NaN` (any comparison with `NaN`
is false). -/
def jsGt : Option Int → Int → Bool
  | none, _ => false
  | some a, b => a > b

/-- Per-request facts the gate reads: routing key (method, path, host)
and the two headers it consults. -/
structure Request where
  method : String
  path : String
  host : String
  contentLengthHeader : Option String
  transferEncodingHeader : Option String

namespace IndexTs

/-- A configured limit in `src/index.ts`: a number of bytes or a
predicate `(request, size) => boolean`. -/
inductive LimitOption where
  | num (n : Int)
  | fn (f : Request → Int → Bool)

/-- Plugin options of `src/index.ts`: optional `registeredLimit` and
`unregisteredLimit`. -/
structure TerminatorOptions where
  registeredLimit : Option LimitOption := none
  unregisteredLimit : Option LimitOption := none

/-- The two option names (`LIMIT_OPTION_NAMES`). -/
inductive LimitOptionName where
  | registered
  | unregistered
deriving DecidableEq

/-- Field lookup `options[optionName]`. -/
def TerminatorOptions.get (o : TerminatorOptions) : LimitOptionName → Option LimitOption
  | .registered => o.registeredLimit
  | .unregistered => o.unregisteredLimit

/-- Embedding of `validateRoute` from `src/index.ts` (lines 52–69): a
nullish option, or a negative numeric option, continues; a numeric option
rejects when `contentLength > option`; a function option rejects when it
returns true.  `throwErr` is the rejection continuation passed by
`onRequest` (it throws, so it never yields `Continue` at the call
sites). -/
def validateRoute (request : Request) (options : TerminatorOptions)
    (contentLength : Int) (optionName : LimitOptionName)
    (throwErr : LimitOption → Verdict) : Verdict :=
  match options.get optionName with
  | none => Verdict.Continue
  | some (LimitOption.num n) =>
      if n < 0 then Verdict.Continue
      else if contentLength > n then throwErr (LimitOption.num n)
      else Verdict.Continue
  | some (LimitOption.fn f) =>
      if f request contentLength then throwErr (LimitOption.fn f)
      else Verdict.Continue

/-- Embedding of `onRequest` from `src/index.ts`: a falsy
`Content-Length` header continues, an unparsable one (`NaN`) continues,
otherwise the request is validated against `registeredLimit` (matched
route, 413 with the numeric limit in the message) or `unregisteredLimit`
(no matched route, 404).  `serverMatch` embeds
`request.server.match(method, path)` as a recognition predicate. -/
def onRequest (options : TerminatorOptions)
    (serverMatch : String → String → Bool) (request : Request) : Verdict :=
  let rawContentLength := request.contentLengthHeader
  if !(strTruthy rawContentLength) then Verdict.Continue
  else
    match parseIntJS (rawContentLength.getD "") with
    | none => Verdict.Continue
    | some contentLength =>
      if serverMatch request.method request.path then
        validateRoute request options contentLength LimitOptionName.registered
          (fun opt =>
            Verdict.Reject413 (match opt with
              | LimitOption.num n => some n
              | LimitOption.fn _ => none))
      else
        validateRoute request options contentLength LimitOptionName.unregistered
          (fun _ => Verdict.Reject404)

end IndexTs

namespace Part004

/-- Plugin options of `src/unnamed/part_004`: the same shape as in
`src/index.ts` (`registeredLimit` / `unregisteredLimit`, each a number or
a predicate), so the option type is shared. -/
abbrev TerminatorOptions := IndexTs.TerminatorOptions

/-- Embedding of `handleUnregisteredRoute` from `src/unnamed/part_004`:
nullish or negative-number limit continues; a numeric limit exceeded by
`contentLength`, or a predicate returning true, destroys the socket and
throws a Boom 404. -/
def handleUnregisteredRoute (request : Request) (options : TerminatorOptions)
    (contentLength : Int) : Verdict :=
  match options.unregisteredLimit with
  | none => Verdict.Continue
  | some (IndexTs.LimitOption.num n) =>
      if n < 0 then Verdict.Continue
      else if contentLength > n then Verdict.Reject404
      else Verdict.Continue
  | some (IndexTs.LimitOption.fn f) =>
      if f request contentLength then Verdict.Reject404
      else Verdict.Continue

/-- Embedding of `handleRegisteredRoute` from `src/unnamed/part_004`:
like `handleUnregisteredRoute` but throwing a Boom 413 whose message
carries the numeric limit when the limit is a number. -/
def handleRegisteredRoute (request : Request) (options : TerminatorOptions)
    (contentLength : Int) : Verdict :=
  match options.registeredLimit with
  | none => Verdict.Continue
  | some (IndexTs.LimitOption.num n) =>
      if n < 0 then Verdict.Continue
      else if contentLength > n then Verdict.Reject413 (some n)
      else Verdict.Continue
  | some (IndexTs.LimitOption.fn f) =>
      if f request contentLength then Verdict.Reject413 none
      else Verdict.Continue

/-- Embedding of `onRequest` from `src/unnamed/part_004`: falsy or
unparsable (`NaN`) `Content-Length` continues; otherwise the matched
route goes to `handleRegisteredRoute` and an unmatched one to
`handleUnregisteredRoute`. -/
def onRequest (options : TerminatorOptions)
    (serverMatch : String → String → Bool) (request : Request) : Verdict :=
  let rawContentLength := request.contentLengthHeader
  if !(strTruthy rawContentLength) then Verdict.Continue
  else
    match parseIntJS (rawContentLength.getD "") with
    | none => Verdict.Continue
    | some contentLength =>
      if serverMatch request.method request.path then
        handleRegisteredRoute request options contentLength
      else
        handleUnregisteredRoute request options contentLength

end Part004

namespace Part002

/-- Value of the `unregisteredLimit` slot after zod validation in
`src/unnamed/part_002` (union of a nullish number ≥ 0 and a boolean; the
nullish case is the surrounding `Option`). -/
inductive UnregisteredLimit where
  | num (n : Int)
  | boolean (b : Bool)
deriving DecidableEq

/-- Plugin options of `src/unnamed/part_002` (and of the identical
handler in the first half of `src/unnamed/part_003`): just the optional
`unregisteredLimit`. -/
structure TerminatorOptions where
  unregisteredLimit : Option UnregisteredLimit
deriving DecidableEq

/-- A matched route as the handler sees it: only
`route.settings.payload?.maxBytes` is consulted. -/
structure RequestRoute where
  maxBytes : Option Int
deriving DecidableEq

/-- The `limit` argument of `validateRoute` in `src/unnamed/part_002`:
`number | boolean | null | undefined`. -/
inductive Limit where
  | null
  | boolean (b : Bool)
  | num (n : Int)
deriving DecidableEq

/-- Embedding of `validateRoute` from `src/unnamed/part_002` lines 54–84
(identical to `src/unnamed/part_003` lines 47–77): nullish limit or
`false` continues; `true` rejects via `response(0)`; a numeric limit
rejects when it is `0` or when `contentLength > limit` (a `NaN`
content length compares false).  `response` is the rejection
continuation chosen by the caller (413 for matched routes, 404
otherwise); the socket is closed once the response has been flushed. -/
def validateRoute (contentLength : Option Int) (limit : Limit)
    (response : Int → Verdict) : Verdict :=
  match limit with
  | Limit.null => Verdict.Continue
  | Limit.boolean false => Verdict.Continue
  | Limit.boolean true => response 0
  | Limit.num n =>
      if n == 0 || jsGt contentLength n then response n
      else Verdict.Continue

/-- Embedding of `validateHookHandler` from `src/unnamed/part_002` lines
22–52 (identical to `src/unnamed/part_003` lines 15–45): requests with
neither a truthy `Transfer-Encoding` nor a truthy `Content-Length`
continue; otherwise `contentLength = parseInt(rawContentLength || '0')`,
a matched route (via `server.match(method, path, host)`) is checked
against its `payload.maxBytes` with a 413 response, and an unmatched one
against `(hasTransferEncoding ? 0 : null) ?? unregisteredLimit` with a
404 response. -/
def validateHookHandler (pluginOptions : Option TerminatorOptions)
    (serverMatch : String → String → String → Option RequestRoute)
    (request : Request) : Verdict :=
  let hasTransferEncoding := strTruthy request.transferEncodingHeader
  let rawContentLength := request.contentLengthHeader
  let willProcessPayload := hasTransferEncoding || strTruthy rawContentLength
  if !willProcessPayload then Verdict.Continue
  else
    let contentLength := parseIntJS
      (if strTruthy rawContentLength then rawContentLength.getD "" else "0")
    match serverMatch request.method request.path request.host with
    | some route =>
        validateRoute contentLength
          (match route.maxBytes with
            | none => Limit.null
            | some n => Limit.num n)
          (fun n => Verdict.Reject413 (some n))
    | none =>
        validateRoute contentLength
          (if hasTransferEncoding then Limit.num 0
           else
             match pluginOptions with
             | none => Limit.null
             | some opts =>
               match opts.unregisteredLimit with
               | none => Limit.null
               | some (UnregisteredLimit.num n) => Limit.num n
               | some (UnregisteredLimit.boolean b) => Limit.boolean b)
          (fun _ => Verdict.Reject404)

end Part002

namespace Part003V2

/-- Parsed per-route plugin block of the second half of
`src/unnamed/part_003`: the `limit` field of
`{ 'hapi-terminator': { limit } }`, a nullish number ≥ 0. -/
structure RouteLimit where
  limit : Option Int
deriving DecidableEq

/-- Plugin options of the second half of `src/unnamed/part_003` after zod
validation: nullish `registeredLimit` and `unregisteredLimit` numbers. -/
structure TerminatorOptions where
  registeredLimit : Option Int
  unregisteredLimit : Option Int
deriving DecidableEq

/-- The two option names (`LIMIT_OPTION_NAMES`). -/
inductive LimitOptionName where
  | registered
  | unregistered
deriving DecidableEq

/-- Field lookup `options?.[optionName]` (the options object itself is
nullish). -/
def optionFor : Option TerminatorOptions → LimitOptionName → Option Int
  | none, _ => none
  | some o, LimitOptionName.registered => o.registeredLimit
  | some o, LimitOptionName.unregistered => o.unregisteredLimit

/-- A matched route as this variant sees it: the cache key fields
`method` and `path`, and the result of
`TerminatorRouteOptionsSchema.safeParse(settings.plugins).data`
(`getRoutePluginSettings`), which is `none` when the route carries no
well-formed plugin block. -/
structure RequestRoute where
  method : String
  path : String
  pluginSettings : Option RouteLimit
deriving DecidableEq

/-- The route-options cache: `Map<string, TerminatorRouteOptions>` keyed
by `method ++ "-" ++ path`; insertion is modelled by consing, lookup by
the first matching key. -/
abbrev RouteOptionsCache := List (String × Option RouteLimit)

/-- Cache key `matchedRoute.method + '-' + matchedRoute.path`. -/
def cacheKey (route : RequestRoute) : String :=
  route.method ++ "-" ++ route.path

/-- Lookup `routeOptionsCache.get(key)`: the stored value for the first
matching key, `none` when the key is absent. -/
def cacheGet (key : String) : RouteOptionsCache → Option (Option RouteLimit)
  | [] => none
  | (k, v) :: rest => if k == key then some v else cacheGet key rest

/-- Embedding of `getRouteAndOptions` from the second half of
`src/unnamed/part_003` (lines 180–199): no matched route yields `null`;
a cached non-nullish options value is returned as is; otherwise the
route's plugin settings are computed, stored in the cache and
returned. -/
def getRouteAndOptions (serverMatch : String → String → Option RequestRoute)
    (routeOptionsCache : RouteOptionsCache) (method path : String) :
    Option (RequestRoute × Option RouteLimit) × RouteOptionsCache :=
  match serverMatch method path with
  | none => (none, routeOptionsCache)
  | some matchedRoute =>
    match cacheGet (cacheKey matchedRoute) routeOptionsCache with
    | some (some cachedResult) =>
        (some (matchedRoute, some cachedResult), routeOptionsCache)
    | _ =>
        let options := matchedRoute.pluginSettings
        (some (matchedRoute, options), (cacheKey matchedRoute, options) :: routeOptionsCache)

/-- Embedding of `validateRoute` from the second half of
`src/unnamed/part_003` (lines 201–221): the effective limit is
`routeOptions?.['hapi-terminator']?.limit ?? options?.[optionName]`; a
nullish effective limit continues, otherwise the request is rejected
exactly when `contentLength > limit`. -/
def validateRoute (options : Option TerminatorOptions) (contentLength : Int)
    (optionName : LimitOptionName) (routeOptions : Option RouteLimit)
    (throwErr : Int → Verdict) : Verdict :=
  let option := optionFor options optionName
  let limit :=
    match routeOptions.bind (fun ro => ro.limit) with
    | some l => some l
    | none => option
  match limit with
  | none => Verdict.Continue
  | some l =>
      if contentLength > l then throwErr l
      else Verdict.Continue

/-- Embedding of `validateHookHandler` from the second half of
`src/unnamed/part_003` (lines 151–178): falsy or unparsable (`NaN`)
`Content-Length` continues; otherwise the route and its cached plugin
options are resolved and the request is validated against
`registeredLimit` (413) or `unregisteredLimit` (404).  The updated cache
is returned alongside the verdict. -/
def validateHookHandler (pluginOptions : Option TerminatorOptions)
    (serverMatch : String → String → Option RequestRoute)
    (routeOptionsCache : RouteOptionsCache) (request : Request) :
    Verdict × RouteOptionsCache :=
  let rawContentLength := request.contentLengthHeader
  if !(strTruthy rawContentLength) then (Verdict.Continue, routeOptionsCache)
  else
    match parseIntJS (rawContentLength.getD "") with
    | none => (Verdict.Continue, routeOptionsCache)
    | some contentLength =>
      match getRouteAndOptions serverMatch routeOptionsCache request.method request.path with
      | (some (_route, options), cache2) =>
          (validateRoute pluginOptions contentLength LimitOptionName.registered options
            (fun l => Verdict.Reject413 (some l)), cache2)
      | (none, cache2) =>
          (validateRoute pluginOptions contentLength LimitOptionName.unregistered none
            (fun _ => Verdict.Reject404), cache2)

end Part003V2

/-- C6: every request carrying neither a Content-Length header nor a
Transfer-Encoding header is admitted (`Continue`) without any limit being
evaluated, for every configuration (including a configured zero-byte
limit), in all four embedded variants of the gate. -/
theorem C6_no_body_continue (request : Request)
    (hcl : strTruthy request.contentLengthHeader = false)
    (hte : strTruthy request.transferEncodingHeader = false) :
    (∀ options serverMatch,
      IndexTs.onRequest options serverMatch request = Verdict.Continue) ∧
    (∀ pluginOptions serverMatch,
      Part002.validateHookHandler pluginOptions serverMatch request = Verdict.Continue) ∧
    (∀ options serverMatch,
      Part004.onRequest options serverMatch request = Verdict.Continue) ∧
    (∀ pluginOptions serverMatch cache,
      (Part003V2.validateHookHandler pluginOptions serverMatch cache request).1
        = Verdict.Continue) := by
  refine ⟨fun options serverMatch => ?_, fun pluginOptions serverMatch => ?_,
    fun options serverMatch => ?_, fun pluginOptions serverMatch cache => ?_⟩ <;>
    simp [IndexTs.onRequest, Part002.validateHookHandler, Part004.onRequest,
      Part003V2.validateHookHandler, hcl, hte]

/-- C6 witness: a POST without either header, against zero-byte limits in
every slot, is admitted by all four variants. -/
theorem C6_no_body_continue_witness :
    IndexTs.onRequest
      { registeredLimit := some (IndexTs.LimitOption.num 0),
        unregisteredLimit := some (IndexTs.LimitOption.num 0) }
      (fun _ _ => true)
      { method := "post", path := "/t", host := "h",
        contentLengthHeader := none, transferEncodingHeader := none }
      = Verdict.Continue :=
  (C6_no_body_continue
    { method := "post", path := "/t", host := "h",
      contentLengthHeader := none, transferEncodingHeader := none }
    (by rfl) (by rfl)).1
    { registeredLimit := some (IndexTs.LimitOption.num 0),
      unregisteredLimit := some (IndexTs.LimitOption.num 0) }
    (fun _ _ => true)

/-- C10: in the variants that key the gate on Content-Length alone
(`src/index.ts`, `src/unnamed/part_004`, and the cached variant in the
second half of `src/unnamed/part_003`), a request with a
Transfer-Encoding header but no (truthy) Content-Length header is
admitted for every configuration, recognized or not: no limit is
evaluated when Content-Length is absent. -/
theorem C10_no_content_length_continue (request : Request)
    (hte : strTruthy request.transferEncodingHeader = true)
    (hcl : strTruthy request.contentLengthHeader = false) :
    (∀ options serverMatch,
      IndexTs.onRequest options serverMatch request = Verdict.Continue) ∧
    (∀ options serverMatch,
      Part004.onRequest options serverMatch request = Verdict.Continue) ∧
    (∀ pluginOptions serverMatch cache,
      (Part003V2.validateHookHandler pluginOptions serverMatch cache request).1
        = Verdict.Continue) := by
  refine ⟨fun options serverMatch => ?_, fun options serverMatch => ?_,
    fun pluginOptions serverMatch cache => ?_⟩ <;>
    simp [IndexTs.onRequest, Part004.onRequest, Part003V2.validateHookHandler, hcl]

/-- C10 witness: a chunked request (Transfer-Encoding present, no
Content-Length) is admitted by the three Content-Length-keyed variants
even under zero-byte limits. -/
theorem C10_no_content_length_continue_witness :
    (Part003V2.validateHookHandler
      (some { registeredLimit := some 0, unregisteredLimit := some 0 })
      (fun _ _ => none) []
      { method := "post", path := "/t", host := "h",
        contentLengthHeader := none,
        transferEncodingHeader := some "chunked" }).1
      = Verdict.Continue :=
  (C10_no_content_length_continue
    { method := "post", path := "/t", host := "h",
      contentLengthHeader := none, transferEncodingHeader := some "chunked" }
    (by rfl) (by rfl)).2.2
    (some { registeredLimit := some 0, unregisteredLimit := some 0 })
    (fun _ _ => none) []

/-- C9: in the variants where registered routes use Hapi's
`payload.maxBytes` (`src/unnamed/part_002` and the identical handler in
`src/unnamed/part_003`), every unmatched request carrying a
Transfer-Encoding header is rejected with 404 regardless of the
configured `unregisteredLimit`, because the effective unregistered limit
is forced to `0`. -/
theorem C9_transfer_encoding_unregistered_404
    (pluginOptions : Option Part002.TerminatorOptions)
    (serverMatch : String → String → String → Option Part002.RequestRoute)
    (request : Request)
    (hte : strTruthy request.transferEncodingHeader = true)
    (hmatch : serverMatch request.method request.path request.host = none) :
    Part002.validateHookHandler pluginOptions serverMatch request
      = Verdict.Reject404 := by
  simp [Part002.validateHookHandler, Part002.validateRoute, hte, hmatch]

/-- C9 witness: a chunked request to an unmatched destination is rejected
with 404 even when `unregisteredLimit` is `false` (never check). -/
theorem C9_transfer_encoding_unregistered_404_witness :
    Part002.validateHookHandler
      (some { unregisteredLimit := some (Part002.UnregisteredLimit.boolean false) })
      (fun _ _ _ => none)
      { method := "post", path := "/missing", host := "h",
        contentLengthHeader := none, transferEncodingHeader := some "chunked" }
      = Verdict.Reject404 :=
  C9_transfer_encoding_unregistered_404
    (some { unregisteredLimit := some (Part002.UnregisteredLimit.boolean false) })
    (fun _ _ _ => none)
    { method := "post", path := "/missing", host := "h",
      contentLengthHeader := none, transferEncodingHeader := some "chunked" }
    (by rfl) (by rfl)

/-- C5: in `src/unnamed/part_002` / `src/unnamed/part_003`, every request
to an unmatched destination that declares a payload size (truthy
Content-Length) is rejected with 404 when `unregisteredLimit` is the
boolean `true` (always reject), regardless of the declared size,
including a declared size of 0. -/
theorem C5_always_reject_404
    (serverMatch : String → String → String → Option Part002.RequestRoute)
    (request : Request)
    (hcl : strTruthy request.contentLengthHeader = true)
    (hmatch : serverMatch request.method request.path request.host = none) :
    Part002.validateHookHandler
      (some { unregisteredLimit := some (Part002.UnregisteredLimit.boolean true) })
      serverMatch request = Verdict.Reject404 := by
  cases hte : strTruthy request.transferEncodingHeader <;>
    simp [Part002.validateHookHandler, Part002.validateRoute, hcl, hmatch, hte]

/-- C5 witness: an unmatched request with declared size 0 is rejected
with 404 under the always-reject policy. -/
theorem C5_always_reject_404_witness :
    Part002.validateHookHandler
      (some { unregisteredLimit := some (Part002.UnregisteredLimit.boolean true) })
      (fun _ _ _ => none)
      { method := "post", path := "/missing", host := "h",
        contentLengthHeader := some "0", transferEncodingHeader := none }
      = Verdict.Reject404 :=
  C5_always_reject_404 (fun _ _ _ => none)
    { method := "post", path := "/missing", host := "h",
      contentLengthHeader := some "0", transferEncodingHeader := none }
    (by rfl) (by rfl)

/-- C8: resolving the per-destination override twice for the same
destination — the second time with the cache warmed by the first
resolution — yields the identical route-and-override value, for every
routing table and every starting cache state, so the effective limit is
independent of cache state. -/
theorem C8_cache_idempotent
    (serverMatch : String → String → Option Part003V2.RequestRoute)
    (cache : Part003V2.RouteOptionsCache) (method path : String) :
    (Part003V2.getRouteAndOptions serverMatch
      (Part003V2.getRouteAndOptions serverMatch cache method path).2 method path).1
    = (Part003V2.getRouteAndOptions serverMatch cache method path).1 := by
  cases hm : serverMatch method path with
  | none => simp [Part003V2.getRouteAndOptions, hm]
  | some route =>
    cases hl : Part003V2.cacheGet (Part003V2.cacheKey route) cache with
    | none =>
      cases hps : route.pluginSettings with
      | none => simp [Part003V2.getRouteAndOptions, hm, hl, hps, Part003V2.cacheGet]
      | some rl => simp [Part003V2.getRouteAndOptions, hm, hl, hps, Part003V2.cacheGet]
    | some v =>
      cases v with
      | none =>
        cases hps : route.pluginSettings with
        | none => simp [Part003V2.getRouteAndOptions, hm, hl, hps, Part003V2.cacheGet]
        | some rl => simp [Part003V2.getRouteAndOptions, hm, hl, hps, Part003V2.cacheGet]
      | some rl => simp [Part003V2.getRouteAndOptions, hm, hl]

/-- C1 counterexample: in `src/unnamed/part_002` a matched route with
`payload.maxBytes = 0` rejects a request with declared size 0 (the
`limit === 0 ||` clause fires), so the boundary case `L = 0`, `s = 0` is
not admitted as the claim states. -/
theorem C1_zero_limit_counterexample :
    Part002.validateHookHandler none (fun _ _ _ => some { maxBytes := some 0 })
      { method := "post", path := "/test", host := "localhost",
        contentLengthHeader := some "0", transferEncodingHeader := none }
      = Verdict.Reject413 (some 0) ∧
    Verdict.Reject413 (some 0) ≠ Verdict.Continue :=
  ⟨rfl, by decide⟩

/-- C1 (amended): with a numeric effective limit `L ≥ 0` and declared
size `s ≥ 0`, the `src/index.ts` gate admits exactly when `s ≤ L`
(including `L = 0` with `s = 0`); in `src/unnamed/part_002` /
`src/unnamed/part_003` the same equivalence holds for `L > 0`, while an
effective limit of `0` rejects every request, including declared
size 0. -/
theorem C1_numeric_limit_admission
    (request : Request) (options : IndexTs.TerminatorOptions)
    (optionName : IndexTs.LimitOptionName) (s L : Int)
    (hs : 0 ≤ s) (hL : 0 ≤ L)
    (throwErr : IndexTs.LimitOption → Verdict)
    (hthrow : ∀ o, throwErr o ≠ Verdict.Continue)
    (hopt : options.get optionName = some (IndexTs.LimitOption.num L))
    (response : Int → Verdict)
    (hresponse : ∀ n, response n ≠ Verdict.Continue) :
    (IndexTs.validateRoute request options s optionName throwErr = Verdict.Continue
      ↔ s ≤ L) ∧
    (0 < L →
      (Part002.validateRoute (some s) (Part002.Limit.num L) response = Verdict.Continue
        ↔ s ≤ L)) ∧
    Part002.validateRoute (some s) (Part002.Limit.num 0) response = response 0 := by
  refine ⟨?_, ?_, ?_⟩
  · simp only [IndexTs.validateRoute, hopt]
    rw [if_neg (by omega)]
    by_cases hgt : s > L
    · simp [hgt, hthrow (IndexTs.LimitOption.num L)]
    · simp [hgt]
      omega
  · intro hLpos
    simp only [Part002.validateRoute, jsGt]
    by_cases hgt : s > L
    · rw [if_pos (by simp [hgt])]
      simp [hresponse L]
      omega
    · rw [if_neg (by simp; omega)]
      simp
      omega
  · simp [Part002.validateRoute]

/-- C1 witness: with limit 5 and declared size 3, both gates admit
(3 ≤ 5), and in the `part_002` variant a zero limit rejects. -/
theorem C1_numeric_limit_admission_witness :
    (IndexTs.validateRoute
        { method := "post", path := "/t", host := "h",
          contentLengthHeader := some "3", transferEncodingHeader := none }
        { registeredLimit := some (IndexTs.LimitOption.num 5), unregisteredLimit := none }
        3 IndexTs.LimitOptionName.registered (fun _ => Verdict.Reject404)
      = Verdict.Continue ↔ (3 : Int) ≤ 5) ∧
    ((0 : Int) < 5 →
      (Part002.validateRoute (some 3) (Part002.Limit.num 5) (fun _ => Verdict.Reject404)
        = Verdict.Continue ↔ (3 : Int) ≤ 5)) ∧
    Part002.validateRoute (some 3) (Part002.Limit.num 0) (fun _ => Verdict.Reject404)
      = Verdict.Reject404 :=
  C1_numeric_limit_admission
    { method := "post", path := "/t", host := "h",
      contentLengthHeader := some "3", transferEncodingHeader := none }
    { registeredLimit := some (IndexTs.LimitOption.num 5), unregisteredLimit := none }
    IndexTs.LimitOptionName.registered 3 5 (by decide) (by decide)
    (fun _ => Verdict.Reject404) (fun _ h => Verdict.noConfusion h)
    (by rfl)
    (fun _ => Verdict.Reject404) (fun _ h => Verdict.noConfusion h)

/-- C2: evaluation of the cached variant (second half of
`src/unnamed/part_003`) at the failing input of the claim: global
`registeredLimit = 500`, matched route with explicit per-route override
`limit: null`, declared size 100000.  The `??` operator coalesces the
explicit `null` override to the global limit, so the request is rejected
with 413 instead of being admitted as the documentation (`limit: null` =
no limit) and the spec state. -/
theorem C2_null_override_code_bug :
    (Part003V2.validateHookHandler
      (some { registeredLimit := some 500, unregisteredLimit := none })
      (fun me pa =>
        if me == "post" && pa == "/upload" then
          some { method := "post", path := "/upload",
                 pluginSettings := some { limit := none } }
        else none)
      []
      { method := "post", path := "/upload", host := "localhost",
        contentLengthHeader := some "100000", transferEncodingHeader := none }).1
      = Verdict.Reject413 (some 500) ∧
    Verdict.Reject413 (some 500) ≠ Verdict.Continue :=
  ⟨rfl, by decide⟩

/-- C3 counterexample: in `src/unnamed/part_002` /
`src/unnamed/part_003`, a request with a Transfer-Encoding header to an
unmatched destination is rejected with 404 even though no limit is
configured at any precedence level (the unregistered limit is forced to
`0`), contradicting the claim that absent configuration always admits. -/
theorem C3_transfer_encoding_counterexample :
    Part002.validateHookHandler none (fun _ _ _ => none)
      { method := "post", path := "/missing", host := "h",
        contentLengthHeader := none, transferEncodingHeader := some "chunked" }
      = Verdict.Reject404 ∧
    Verdict.Reject404 ≠ Verdict.Continue :=
  ⟨rfl, by decide⟩

/-- C3 (amended): a destination with no limit configured at any
precedence level is admitted regardless of declared size — in
`src/index.ts` whenever the consulted option slot is nullish, and in
`src/unnamed/part_002` / `src/unnamed/part_003` for every request without
Transfer-Encoding and for every matched route without a
`payload.maxBytes` cap — except that in the latter variants an unmatched
request carrying Transfer-Encoding is rejected with 404 even with no
configured limit. -/
theorem C3_unconfigured_admits :
    (∀ request contentLength optionName throwErr,
      IndexTs.validateRoute request
        { registeredLimit := none, unregisteredLimit := none }
        contentLength optionName throwErr = Verdict.Continue) ∧
    (∀ (serverMatch : String → String → String → Option Part002.RequestRoute)
        (request : Request),
      (∀ me pa ho r, serverMatch me pa ho = some r → r.maxBytes = none) →
      strTruthy request.transferEncodingHeader = false →
      Part002.validateHookHandler none serverMatch request = Verdict.Continue) ∧
    (∀ (serverMatch : String → String → String → Option Part002.RequestRoute)
        (request : Request) route,
      serverMatch request.method request.path request.host = some route →
      route.maxBytes = none →
      Part002.validateHookHandler none serverMatch request = Verdict.Continue) ∧
    (∀ (serverMatch : String → String → String → Option Part002.RequestRoute)
        (request : Request),
      serverMatch request.method request.path request.host = none →
      strTruthy request.transferEncodingHeader = true →
      Part002.validateHookHandler none serverMatch request = Verdict.Reject404) := by
  refine ⟨?_, ?_, ?_, ?_⟩
  · intro request contentLength optionName throwErr
    cases optionName <;> simp [IndexTs.validateRoute, IndexTs.TerminatorOptions.get]
  · intro serverMatch request hmax hte
    cases hcl : strTruthy request.contentLengthHeader
    · simp [Part002.validateHookHandler, hte, hcl]
    · cases hm : serverMatch request.method request.path request.host with
      | none =>
        simp [Part002.validateHookHandler, Part002.validateRoute, hte, hcl, hm]
      | some route =>
        have hmb := hmax _ _ _ _ hm
        simp [Part002.validateHookHandler, Part002.validateRoute, hte, hcl, hm, hmb]
  · intro serverMatch request route hm hmb
    cases hte : strTruthy request.transferEncodingHeader <;>
      cases hcl : strTruthy request.contentLengthHeader <;>
      simp [Part002.validateHookHandler, Part002.validateRoute, hte, hcl, hm, hmb]
  · intro serverMatch request hm hte
    simp [Part002.validateHookHandler, Part002.validateRoute, hte, hm]

/-- C3 witness: concrete instances — an unconfigured `src/index.ts` gate
admits a 100000-byte declaration, an unconfigured `part_002` gate admits
a plain POST with a declared size, and the Transfer-Encoding exception
rejects with 404. -/
theorem C3_unconfigured_admits_witness :
    IndexTs.validateRoute
      { method := "post", path := "/t", host := "h",
        contentLengthHeader := some "100000", transferEncodingHeader := none }
      { registeredLimit := none, unregisteredLimit := none }
      100000 IndexTs.LimitOptionName.registered (fun _ => Verdict.Reject404)
      = Verdict.Continue ∧
    Part002.validateHookHandler none (fun _ _ _ => none)
      { method := "post", path := "/missing", host := "h",
        contentLengthHeader := some "100000", transferEncodingHeader := none }
      = Verdict.Continue ∧
    Part002.validateHookHandler none (fun _ _ _ => none)
      { method := "post", path := "/missing", host := "h",
        contentLengthHeader := none, transferEncodingHeader := some "chunked" }
      = Verdict.Reject404 :=
  ⟨C3_unconfigured_admits.1
      { method := "post", path := "/t", host := "h",
        contentLengthHeader := some "100000", transferEncodingHeader := none }
      100000 IndexTs.LimitOptionName.registered (fun _ => Verdict.Reject404),
   C3_unconfigured_admits.2.1 (fun _ _ _ => none)
      { method := "post", path := "/missing", host := "h",
        contentLengthHeader := some "100000", transferEncodingHeader := none }
      (fun _ _ _ _ h => Option.noConfusion h) (by rfl),
   C3_unconfigured_admits.2.2.2 (fun _ _ _ => none)
      { method := "post", path := "/missing", host := "h",
        contentLengthHeader := none, transferEncodingHeader := some "chunked" }
      (by rfl) (by rfl)⟩

/-- C4 counterexample: in `src/unnamed/part_002` /
`src/unnamed/part_003`, a request with a body signalled by
Transfer-Encoding to an unmatched destination is rejected with 404 even
though `unregisteredLimit` is `false` (never check): the
Transfer-Encoding forcing takes precedence over the policy, contradicting
the claim that the gate reports `Continue` for every unrecognized request
with a body. -/
theorem C4_never_check_counterexample :
    Part002.validateHookHandler
      (some { unregisteredLimit := some (Part002.UnregisteredLimit.boolean false) })
      (fun _ _ _ => none)
      { method := "post", path := "/missing", host := "h",
        contentLengthHeader := some "10", transferEncodingHeader := some "chunked" }
      = Verdict.Reject404 ∧
    Verdict.Reject404 ≠ Verdict.Continue :=
  ⟨rfl, by decide⟩

/-- C4 (amended): with `unregisteredLimit = false` (never check), every
request without a Transfer-Encoding header to an unmatched destination is
admitted (`Continue`) regardless of its declared Content-Length; requests
carrying Transfer-Encoding are instead rejected with 404 because the
unregistered limit is forced to `0`. -/
theorem C4_never_check_continue
    (serverMatch : String → String → String → Option Part002.RequestRoute)
    (request : Request)
    (hmatch : serverMatch request.method request.path request.host = none)
    (hte : strTruthy request.transferEncodingHeader = false) :
    Part002.validateHookHandler
      (some { unregisteredLimit := some (Part002.UnregisteredLimit.boolean false) })
      serverMatch request = Verdict.Continue := by
  cases hcl : strTruthy request.contentLengthHeader <;>
    simp [Part002.validateHookHandler, Part002.validateRoute, hmatch, hte, hcl]

/-- C4 witness: an unmatched request declaring 100000 bytes (no
Transfer-Encoding) is admitted under the never-check policy. -/
theorem C4_never_check_continue_witness :
    Part002.validateHookHandler
      (some { unregisteredLimit := some (Part002.UnregisteredLimit.boolean false) })
      (fun _ _ _ => none)
      { method := "post", path := "/missing", host := "h",
        contentLengthHeader := some "100000", transferEncodingHeader := none }
      = Verdict.Continue :=
  C4_never_check_continue (fun _ _ _ => none)
    { method := "post", path := "/missing", host := "h",
      contentLengthHeader := some "100000", transferEncodingHeader := none }
    (by rfl) (by rfl)

/-- C7 counterexample: `Number.parseInt('123abc', 10)` is `123`, not
`NaN`, so in `src/index.ts` a request with Content-Length `"123abc"`
against a registered limit of 100 is rejected with 413 — the gate does
reject based on a header that is not parsable as a (whole) non-negative
integer, contradicting the claim. -/
theorem C7_prefix_parse_counterexample :
    IndexTs.onRequest
      { registeredLimit := some (IndexTs.LimitOption.num 100), unregisteredLimit := none }
      (fun _ _ => true)
      { method := "post", path := "/t", host := "h",
        contentLengthHeader := some "123abc", transferEncodingHeader := none }
      = Verdict.Reject413 (some 100) ∧
    Verdict.Reject413 (some 100) ≠ Verdict.Continue :=
  ⟨rfl, by decide⟩

/-- C7 (amended): in the `src/index.ts` and `src/unnamed/part_004`
variants, a request whose Content-Length has no parsable integer prefix
(`Number.parseInt` yields `NaN`, e.g. `"abc"`) is treated as having no
declared size and passes through for every configuration and
destination; a value with a numeric prefix such as `"123abc"` is instead
parsed as that prefix (123) and evaluated against the limit.  (In
`src/unnamed/part_002` / `src/unnamed/part_003` the NaN guard is absent
and an unparsable value is rejected when the effective limit is 0.) -/
theorem C7_unparsable_continue (request : Request)
    (hparse : parseIntJS (request.contentLengthHeader.getD "") = none) :
    (∀ options serverMatch,
      IndexTs.onRequest options serverMatch request = Verdict.Continue) ∧
    (∀ options serverMatch,
      Part004.onRequest options serverMatch request = Verdict.Continue) ∧
    parseIntJS "abc" = none ∧ parseIntJS "123abc" = some 123 := by
  refine ⟨fun options serverMatch => ?_, fun options serverMatch => ?_, by rfl, by rfl⟩ <;>
    cases hcl : strTruthy request.contentLengthHeader <;>
      simp [IndexTs.onRequest, Part004.onRequest, hcl, hparse]

/-- C7 witness: a request with Content-Length `"abc"` is admitted by the
`src/index.ts` gate even against a zero-byte registered limit. -/
theorem C7_unparsable_continue_witness :
    IndexTs.onRequest
      { registeredLimit := some (IndexTs.LimitOption.num 0), unregisteredLimit := none }
      (fun _ _ => true)
      { method := "post", path := "/t", host := "h",
        contentLengthHeader := some "abc", transferEncodingHeader := none }
      = Verdict.Continue :=
  (C7_unparsable_continue
    { method := "post", path := "/t", host := "h",
      contentLengthHeader := some "abc", transferEncodingHeader := none }
    (by rfl)).1
    { registeredLimit := some (IndexTs.LimitOption.num 0), unregisteredLimit := none }
    (fun _ _ => true)
